import Mathlib

/-!
Verification of the Wintertodt bot (`src/model/osrs/wintertodt.py`) against its
natural-language specification. The Python class `OSRSWintertodt` is shallowly
embedded: chat strings become `List Char`, timestamps become `ℚ`, the mutable
runtime fields (`round_active`, `damage_count`, `round_ended_at`,
`last_chat_msg`, `rounds_completed`) become a `WTState` record, and each
side-effecting branch of the arena handler is recorded as an `ArenaAction` tag.
-/

namespace Wintertodt

/-- Chat lines are modelled as lists of characters. -/
abbrev Str := List Char

/-- Boolean prefix test on character lists (Python `str.startswith`). -/
def startsWith : Str → Str → Bool
  | [], _ => true
  | _ :: _, [] => false
  | a :: p, b :: s => a == b && startsWith p s

/-- Boolean substring test (Python `pat in s`). -/
def containsSubstr (s pat : Str) : Bool :=
  match s with
  | [] => startsWith pat []
  | _ :: rest => startsWith pat s || containsSubstr rest pat

/-- Lowercase a chat line character by character (Python `str.lower`). -/
def lowerStr (s : Str) : Str := s.map Char.toLower

/-- Result tags of `__check_round_status` (the Python function returns the
strings "round_end", "brazier_out", "brazier_broken", "damaged", "none"). -/
inductive RoundStatus
  | roundEnd
  | brazierOut
  | brazierBroken
  | damaged
  | none
deriving DecidableEq

/-- The substring that detects the round-end broadcast. -/
def subduedPhrase : Str := "subdued".data

/-- Exact RuneLite phrase for an extinguished brazier. -/
def brazierOutPhrase : Str := "The brazier has gone out".data

/-- Exact RuneLite phrase for an exploded brazier. -/
def brazierBrokenPhrase : Str := "The brazier is broken and shrapnel".data

/-- First standard cold-damage phrase. -/
def coldOfPhrase : Str := "The cold of".data

/-- Area-attack damage phrase. -/
def freezingColdPhrase : Str := "The freezing cold attack".data

/-- Embedding of `__check_round_status` (wintertodt.py lines 387-434): checks
the latest chat message against the last-seen message, classifies new messages
by substring/prefix rules, and returns the classification together with the new
value of `last_chat_msg`. -/
def checkRoundStatus (msg last_chat_msg : Str) : RoundStatus × Str :=
  if msg = [] ∨ msg = last_chat_msg then (RoundStatus.none, last_chat_msg)
  else if containsSubstr (lowerStr msg) subduedPhrase then (RoundStatus.roundEnd, msg)
  else if startsWith brazierOutPhrase msg then (RoundStatus.brazierOut, msg)
  else if startsWith brazierBrokenPhrase msg then (RoundStatus.brazierBroken, msg)
  else if startsWith coldOfPhrase msg || startsWith freezingColdPhrase msg then
    (RoundStatus.damaged, msg)
  else (RoundStatus.none, msg)

/-- Classify a stream of chat lines tick by tick, threading `last_chat_msg`. -/
def classifyStream (last : Str) : List Str → List RoundStatus
  | [] => []
  | m :: ms =>
    let r := checkRoundStatus m last
    r.1 :: classifyStream r.2 ms

/-- Side-effecting branches the arena handler can take on one tick. -/
inductive ArenaAction
  | roundEndHandling
  | relightBrazier
  | repairBrazier
  | preparePotions
  | exitArena
  | chopRoots
  | fletchRoots
  | feedBrazier
  | waitBusy
  | idleWait
  | engage
deriving DecidableEq

/-- Embedding of the decision tree of `__do_wintertodt_actions`
(wintertodt.py lines 824-831), after the idle gate has passed. -/
def nextWintertodtAction (fletch_roots has_roots has_kindling inv_full : Bool) : ArenaAction :=
  if inv_full || (has_roots && !fletch_roots) || has_kindling then
    if fletch_roots && has_roots then ArenaAction.fletchRoots
    else ArenaAction.feedBrazier
  else ArenaAction.chopRoots

/-- Embedding of `__do_wintertodt_actions` (wintertodt.py lines 814-831),
including the busy/idle gate at line 820. -/
def doWintertodtActions (fletch_roots has_roots has_kindling inv_full idle : Bool) : ArenaAction :=
  if !idle then ArenaAction.waitBusy
  else nextWintertodtAction fletch_roots has_roots has_kindling inv_full

/-- Abstract planner output vocabulary of the specification (§4.5). -/
inductive PlanAction
  | gather
  | convert
  | deposit
deriving DecidableEq

/-- Modelled from the spec: §4.5 decision order "if inventory is full, or an
intermediate product is present, or (raw material present and
conversion-to-intermediate is disabled) → Deposit. Else if conversion is
enabled and raw material is present → Convert. Else → Gather." Written from
the spec's words for comparison against `nextWintertodtAction`. -/
def specNextAction (hasRawMaterial hasIntermediate inventoryFull fletchEnabled : Bool) :
    PlanAction :=
  if inventoryFull || hasIntermediate || (hasRawMaterial && !fletchEnabled) then
    PlanAction.deposit
  else if fletchEnabled && hasRawMaterial then PlanAction.convert
  else PlanAction.gather

/-- Map the code's concrete arena actions onto the spec's planner vocabulary:
chopping gathers, fletching converts, feeding the brazier deposits. -/
def toPlanAction : ArenaAction → Option PlanAction
  | ArenaAction.chopRoots => some PlanAction.gather
  | ArenaAction.fletchRoots => some PlanAction.convert
  | ArenaAction.feedBrazier => some PlanAction.deposit
  | _ => Option.none

/-- The concrete cold-damage chat line of the spec's §8 dedup scenario. -/
def coldMsg : Str := "The cold of the Wintertodt chills you.".data

/-- A round-end broadcast line in mixed letter case. -/
def subduedMsg : Str := "The Wintertodt has been SUBDUED!".data

/-- A brazier-explosion chat line. -/
def brokenMsg : Str := "The brazier is broken and shrapnel damages you.".data

/-- Wintertodt respawn timer in seconds (wintertodt.py line 35). -/
def WT_RESPAWN_SECONDS : ℚ := 60

/-- Mutable runtime fields of `OSRSWintertodt` relevant to the round-lifecycle
state machine (initialised at wintertodt.py lines 157-162). Timestamps are
modelled as rationals. -/
structure WTState where
  round_active : Bool
  damage_count : Int
  round_ended_at : ℚ
  last_chat_msg : Str
  rounds_completed : Nat
deriving DecidableEq

/-- Initial runtime state set in `__init__` (wintertodt.py lines 157-162). -/
def initialState : WTState :=
  { round_active := false
    damage_count := 0
    round_ended_at := 0
    last_chat_msg := []
    rounds_completed := 0 }

/-- Environment snapshot one arena tick reads: the latest chat line, the
current wall-clock time, and the inventory/idle queries made during the tick. -/
structure ArenaInputs where
  msg : Str
  now : ℚ
  hasPotion : Bool
  hasRoots : Bool
  hasKindling : Bool
  invFull : Bool
  idle : Bool
deriving DecidableEq

/-- Result of one arena tick: the updated state, whether a potion dose was
drunk this tick, and which side-effecting branch was taken. -/
structure ArenaResult where
  state : WTState
  drank : Bool
  action : ArenaAction
deriving DecidableEq

/-- Embedding of `__handle_warmth` (wintertodt.py lines 596-609) together with
the `damage_count` effect of `__drink_potion` (lines 457-468). Returns
(return value, new damage count, whether a potion was drunk): when the damage
count has reached the threshold the bot drinks a potion if one is available
(resetting the count to 0) and otherwise returns `false` to signal exhaustion. -/
def handleWarmth (damage_count eat_every_n_hits : Int) (hasPotion : Bool) :
    Bool × Int × Bool :=
  if damage_count ≥ eat_every_n_hits then
    if hasPotion = false then (false, damage_count, false)
    else (true, 0, true)
  else (true, damage_count, false)

/-- Tail of `__handle_arena` after the event dispatch (wintertodt.py lines
784-812): run the warmth manager, fall back to potion preparation or arena
exit on exhaustion, do Wintertodt actions while the round is active, and
otherwise wait for the round with the 60-second respawn-timer fallback. -/
def afterEvents (fletch_roots : Bool) (eat_every_n_hits : Int) (s2 : WTState)
    (inp : ArenaInputs) : ArenaResult :=
  let w := handleWarmth s2.damage_count eat_every_n_hits inp.hasPotion
  let s3 : WTState := { s2 with damage_count := w.2.1 }
  if w.1 = false then
    if s3.round_active = false then ⟨s3, false, ArenaAction.preparePotions⟩
    else ⟨s3, false, ArenaAction.exitArena⟩
  else if s3.round_active = true then
    ⟨s3, w.2.2,
      doWintertodtActions fletch_roots inp.hasRoots inp.hasKindling inp.invFull inp.idle⟩
  else if inp.hasPotion = false then ⟨s3, w.2.2, ArenaAction.preparePotions⟩
  else if s3.round_ended_at > 0 ∧ inp.now - s3.round_ended_at ≥ WT_RESPAWN_SECONDS + 5 then
    ⟨{ s3 with round_active := true }, w.2.2, ArenaAction.engage⟩
  else ⟨s3, w.2.2, ArenaAction.idleWait⟩

/-- Event dispatch of `__handle_arena` (wintertodt.py lines 763-793) given the
already-computed round status: round end updates the round bookkeeping
(`__on_round_end`, lines 833-852), brazier events trigger relight/repair
(breakage also counts as a damage event), and a damage event increments the
damage count and marks the round active before control falls through to
`afterEvents`. -/
def handleArenaCore (fletch_roots : Bool) (eat_every_n_hits : Int) (st : RoundStatus)
    (s1 : WTState) (inp : ArenaInputs) : ArenaResult :=
  match st with
  | RoundStatus.roundEnd =>
    ⟨{ s1 with round_active := false
               rounds_completed := s1.rounds_completed + 1
               round_ended_at := inp.now },
      false, ArenaAction.roundEndHandling⟩
  | RoundStatus.brazierOut => ⟨s1, false, ArenaAction.relightBrazier⟩
  | RoundStatus.brazierBroken =>
    ⟨{ s1 with damage_count := s1.damage_count + 1 }, false, ArenaAction.repairBrazier⟩
  | RoundStatus.damaged =>
    afterEvents fletch_roots eat_every_n_hits
      { s1 with damage_count := s1.damage_count + 1, round_active := true } inp
  | RoundStatus.none => afterEvents fletch_roots eat_every_n_hits s1 inp

/-- Embedding of `__handle_arena` (wintertodt.py lines 759-812): classify the
latest chat line (recording it in `last_chat_msg`), then dispatch on the
resulting round status. -/
def handleArena (fletch_roots : Bool) (eat_every_n_hits : Int) (s : WTState)
    (inp : ArenaInputs) : ArenaResult :=
  let rs := checkRoundStatus inp.msg s.last_chat_msg
  handleArenaCore fletch_roots eat_every_n_hits rs.1 { s with last_chat_msg := rs.2 } inp

/-- Run a sequence of arena ticks from a starting state. -/
def arenaRun (fletch_roots : Bool) (eat_every_n_hits : Int) (s : WTState) :
    List ArenaInputs → WTState
  | [] => s
  | i :: is => arenaRun fletch_roots eat_every_n_hits
      (handleArena fletch_roots eat_every_n_hits s i).state is

/-- Embedding of the retry loop of `__enter_arena` (wintertodt.py lines
721-730): `readings` are the successive `__is_in_arena` checks of the bounded
retry window (ten in the source). On the first `true` reading the bot assumes
the round is active and clears the damage count; if no reading is `true` the
entry failed and the state is unchanged. Returns (state, entry succeeded). -/
def enterArena (readings : List Bool) (s : WTState) : WTState × Bool :=
  match readings with
  | [] => (s, false)
  | r :: rest =>
    if r then ({ s with round_active := true, damage_count := 0 }, true)
    else enterArena rest s

/-- Rejuvenation potion item ids, ordered 4-dose to 1-dose (wintertodt.py
lines 106-111). -/
def REJUV_POTION_IDS : List Nat := [20699, 20700, 20701, 20702]

/-- Embedding of `__count_potion_doses` (wintertodt.py lines 440-448):
`slotCount id` is the number of inventory slots holding item `id` (the length
of `get_inv_item_indices(id)`); each variant contributes its slot count times
its dose value 4, 3, 2, 1. -/
def countPotionDoses (slotCount : Nat → Nat) : Nat :=
  (REJUV_POTION_IDS.enum).foldl (fun total p => total + slotCount p.2 * (4 - p.1)) 0

/-- Add `k` inventory slots of item `id` to an inventory snapshot. -/
def addSlots (slotCount : Nat → Nat) (id k : Nat) : Nat → Nat :=
  fun j => if j = id then slotCount j + k else slotCount j

example : countPotionDoses (fun j => if j = 20699 then 2 else 0) = 8 := by decide

example :
    (enterArena [false, true] initialState).1.round_active = true := by decide

example :
    (handleArena false 3 initialState
      { msg := [], now := 100, hasPotion := true, hasRoots := false,
        hasKindling := false, invFull := false, idle := true }).action =
      ArenaAction.idleWait := by decide

/-- C1 counterexample: the claim's decision order fails on the code at two
concrete inputs. With fletching enabled, roots present, no kindling and a full
inventory the code fletches (Convert) while the spec's order demands Deposit;
with fletching enabled, roots present, no kindling and a non-full inventory
the code chops (Gather) while the spec's order demands Convert. -/
theorem C1_counterexample :
    toPlanAction (nextWintertodtAction true true false true) = some PlanAction.convert ∧
    specNextAction true false true true = PlanAction.deposit ∧
    some PlanAction.convert ≠ some PlanAction.deposit ∧
    toPlanAction (nextWintertodtAction true true false false) = some PlanAction.gather ∧
    specNextAction true false false true = PlanAction.convert ∧
    some PlanAction.gather ≠ some PlanAction.convert := by decide

/-- C1 (amended): the action planner's actual decision order is: if the
inventory is full, or kindling is present, or roots are present while
fletching is disabled, then the chosen action is Convert (fletch) when
fletching is enabled and roots are present and otherwise Deposit (feed the
brazier); in all remaining cases the chosen action is Gather (chop). -/
theorem C1_plannerDecision : ∀ f r k full : Bool,
    (nextWintertodtAction f r k full = ArenaAction.fletchRoots ↔
      ((full = true ∨ k = true ∨ (r = true ∧ f = false)) ∧ f = true ∧ r = true)) ∧
    (nextWintertodtAction f r k full = ArenaAction.feedBrazier ↔
      ((full = true ∨ k = true ∨ (r = true ∧ f = false)) ∧ ¬(f = true ∧ r = true))) ∧
    (nextWintertodtAction f r k full = ArenaAction.chopRoots ↔
      ¬(full = true ∨ k = true ∨ (r = true ∧ f = false))) := by decide

/-- C1 witness: concrete evaluations of the amended decision order — a full
inventory with fletching enabled and roots on hand fletches, and an empty
inventory with fletching disabled chops. -/
theorem C1_witness :
    nextWintertodtAction true true false true = ArenaAction.fletchRoots ∧
    nextWintertodtAction false false false false = ArenaAction.chopRoots :=
  ⟨(C1_plannerDecision true true false true).1.mpr (by decide),
   (C1_plannerDecision false false false false).2.2.mpr (by decide)⟩

/-- C7: for every combination of the remaining inventory flags, when the
inventory is reported full the planner never chooses to chop roots (Gather):
it fletches (Convert) or feeds the brazier (Deposit), and this also holds
through the busy/idle gate of `__do_wintertodt_actions`. -/
theorem C7_neverGatherWhenFull : ∀ f r k idle : Bool,
    nextWintertodtAction f r k true ≠ ArenaAction.chopRoots ∧
    (nextWintertodtAction f r k true = ArenaAction.fletchRoots ∨
     nextWintertodtAction f r k true = ArenaAction.feedBrazier) ∧
    doWintertodtActions f r k true idle ≠ ArenaAction.chopRoots := by decide

/-- C7 witness: with a full inventory, roots on hand and fletching disabled,
the planner feeds the brazier rather than chopping. -/
theorem C7_witness :
    nextWintertodtAction false true false true = ArenaAction.fletchRoots ∨
    nextWintertodtAction false true false true = ArenaAction.feedBrazier :=
  (C7_neverGatherWhenFull false true false true).2.1

/-- C4: an empty or repeated chat line classifies as None and leaves the
last-seen line unchanged; the spec's stream scenario classifies as
[None, Damaged, None]; and every new non-empty distinct line overwrites the
last-seen slot even when its classification is None. -/
theorem C4_classifierDedup :
    (∀ msg last : Str, msg = [] ∨ msg = last →
      checkRoundStatus msg last = (RoundStatus.none, last)) ∧
    classifyStream [] [[], coldMsg, coldMsg] =
      [RoundStatus.none, RoundStatus.damaged, RoundStatus.none] ∧
    (∀ msg last : Str, msg ≠ [] → msg ≠ last → (checkRoundStatus msg last).2 = msg) := by
  refine ⟨?_, by decide, ?_⟩
  · intro msg last h
    unfold checkRoundStatus
    rw [if_pos h]
  · intro msg last h1 h2
    unfold checkRoundStatus
    rw [if_neg (by simp [h1, h2])]
    split_ifs <;> rfl

/-- C4 witness: a line identical to the last-seen line classifies as None with
the slot unchanged, and a new distinct line overwrites the slot. -/
theorem C4_witness :
    checkRoundStatus coldMsg coldMsg = (RoundStatus.none, coldMsg) ∧
    (checkRoundStatus subduedMsg coldMsg).2 = subduedMsg :=
  ⟨C4_classifierDedup.1 coldMsg coldMsg (Or.inr rfl),
   C4_classifierDedup.2.2 subduedMsg coldMsg (by decide) (by decide)⟩

/-- C8: every new, non-empty chat line distinct from the last-seen line whose
lowercase form contains the substring "subdued" classifies as RoundEnd (and
updates the last-seen slot), regardless of what other rules might match. -/
theorem C8_subduedRoundEnd : ∀ msg last : Str, msg ≠ [] → msg ≠ last →
    containsSubstr (lowerStr msg) subduedPhrase = true →
    checkRoundStatus msg last = (RoundStatus.roundEnd, msg) := by
  intro msg last h1 h2 h3
  unfold checkRoundStatus
  rw [if_neg (by simp [h1, h2]), if_pos h3]

/-- C8 witness: an upper-case "SUBDUED" broadcast classifies as RoundEnd on
the first-ever line read (last-seen slot still empty). -/
theorem C8_witness :
    checkRoundStatus subduedMsg [] = (RoundStatus.roundEnd, subduedMsg) :=
  C8_subduedRoundEnd subduedMsg [] (by decide) (by decide) (by decide)

/-- C9: the total dose count is exactly 4 per slot of the 4-dose variant plus
3, 2, 1 per slot of the 3-, 2-, 1-dose variants, and adding k slots of a
variant of dose value d increases the total by exactly k times d. -/
theorem C9_doseAccounting : ∀ (slotCount : Nat → Nat) (k : Nat),
    countPotionDoses slotCount =
      slotCount 20699 * 4 + slotCount 20700 * 3 + slotCount 20701 * 2 +
        slotCount 20702 * 1 ∧
    countPotionDoses (addSlots slotCount 20699 k) = countPotionDoses slotCount + k * 4 ∧
    countPotionDoses (addSlots slotCount 20700 k) = countPotionDoses slotCount + k * 3 ∧
    countPotionDoses (addSlots slotCount 20701 k) = countPotionDoses slotCount + k * 2 ∧
    countPotionDoses (addSlots slotCount 20702 k) = countPotionDoses slotCount + k * 1 := by
  intro slotCount k
  refine ⟨?_, ?_, ?_, ?_, ?_⟩ <;>
    simp [countPotionDoses, REJUV_POTION_IDS, addSlots, List.enum] <;> ring

/-- C9 witness: adding 3 slots of the 3-dose variant to an empty inventory
adds exactly 9 doses. -/
theorem C9_witness :
    countPotionDoses (addSlots (fun _ => 0) 20700 3) =
      countPotionDoses (fun _ => 0) + 3 * 3 :=
  (C9_doseAccounting (fun _ => 0) 3).2.2.1

lemma handleWarmth_lt {dc th : Int} (p : Bool) (h : dc < th) :
    handleWarmth dc th p = (true, dc, false) := by
  unfold handleWarmth
  rw [if_neg (by omega)]

lemma handleWarmth_exhausted {dc th : Int} (h : dc ≥ th) :
    handleWarmth dc th false = (false, dc, false) := by
  unfold handleWarmth
  rw [if_pos h]
  rfl

lemma handleWarmth_consume {dc th : Int} (h : dc ≥ th) :
    handleWarmth dc th true = (true, 0, true) := by
  unfold handleWarmth
  rw [if_pos h]
  rfl

lemma afterEvents_dc_drank (f : Bool) (th : Int) (s2 : WTState) (inp : ArenaInputs) :
    ((afterEvents f th s2 inp).drank = true ∧
      (afterEvents f th s2 inp).state.damage_count = 0) ∨
    ((afterEvents f th s2 inp).drank = false ∧
      (afterEvents f th s2 inp).state.damage_count = s2.damage_count) := by
  simp only [afterEvents, handleWarmth]
  split_ifs <;> simp_all

lemma handleArena_eq (f : Bool) (th : Int) (s : WTState) (inp : ArenaInputs) :
    handleArena f th s inp =
      handleArenaCore f th (checkRoundStatus inp.msg s.last_chat_msg).1
        { s with last_chat_msg := (checkRoundStatus inp.msg s.last_chat_msg).2 } inp := rfl

lemma handleArena_dc_drank (f : Bool) (th : Int) (s : WTState) (inp : ArenaInputs) :
    ((handleArena f th s inp).drank = true ∧
      (handleArena f th s inp).state.damage_count = 0) ∨
    ((handleArena f th s inp).drank = false ∧
      ((handleArena f th s inp).state.damage_count = s.damage_count ∨
       (handleArena f th s inp).state.damage_count = s.damage_count + 1)) := by
  rw [handleArena_eq]
  cases h : (checkRoundStatus inp.msg s.last_chat_msg).1 <;>
    simp only [handleArenaCore]
  case roundEnd => simp
  case brazierOut => simp
  case brazierBroken => simp
  case damaged =>
    rcases afterEvents_dc_drank f th
        { s with last_chat_msg := (checkRoundStatus inp.msg s.last_chat_msg).2,
                 damage_count := s.damage_count + 1, round_active := true } inp with
      ⟨h1, h2⟩ | ⟨h1, h2⟩ <;> simp_all
  case none =>
    rcases afterEvents_dc_drank f th
        { s with last_chat_msg := (checkRoundStatus inp.msg s.last_chat_msg).2 } inp with
      ⟨h1, h2⟩ | ⟨h1, h2⟩ <;> simp_all

lemma handleArena_nonneg (f : Bool) (th : Int) (s : WTState) (inp : ArenaInputs)
    (h : 0 ≤ s.damage_count) : 0 ≤ (handleArena f th s inp).state.damage_count := by
  rcases handleArena_dc_drank f th s inp with ⟨_, h2⟩ | ⟨_, h2 | h2⟩ <;> omega

lemma arenaRun_nonneg (f : Bool) (th : Int) (inps : List ArenaInputs) :
    ∀ s : WTState, 0 ≤ s.damage_count → 0 ≤ (arenaRun f th s inps).damage_count := by
  induction inps with
  | nil => intro s h; exact h
  | cons i is ih =>
    intro s h
    exact ih _ (handleArena_nonneg f th s i h)

lemma handleArena_brazierBroken (f : Bool) (th : Int) (s : WTState) (inp : ArenaInputs)
    (h : (checkRoundStatus inp.msg s.last_chat_msg).1 = RoundStatus.brazierBroken) :
    (handleArena f th s inp).state.damage_count = s.damage_count + 1 ∧
    (handleArena f th s inp).action = ArenaAction.repairBrazier := by
  rw [handleArena_eq, h]
  simp [handleArenaCore]

lemma handleArena_damaged (f : Bool) (th : Int) (s : WTState) (inp : ArenaInputs)
    (h : (checkRoundStatus inp.msg s.last_chat_msg).1 = RoundStatus.damaged) :
    ((handleArena f th s inp).drank = false →
      (handleArena f th s inp).state.damage_count = s.damage_count + 1) ∧
    ((handleArena f th s inp).drank = true →
      (handleArena f th s inp).state.damage_count = 0) := by
  rw [handleArena_eq, h]
  simp only [handleArenaCore]
  rcases afterEvents_dc_drank f th
      { s with last_chat_msg := (checkRoundStatus inp.msg s.last_chat_msg).2,
               damage_count := s.damage_count + 1, round_active := true } inp with
    ⟨h1, h2⟩ | ⟨h1, h2⟩ <;> simp_all

/-- C5: one arena tick changes the damage counter only to 0 (on potion
consumption), leaves it unchanged, or increments it by exactly 1; a potion
drink always resets it to exactly 0; a brazier-broken event and (absent a
drink) a damage event increment it by exactly 1; arena entry either resets it
to 0 or leaves it unchanged; and starting from the initial state it stays
non-negative along every sequence of arena ticks. -/
theorem C5_damageCounter :
    (∀ (f : Bool) (th : Int) (s : WTState) (inp : ArenaInputs),
      (handleArena f th s inp).state.damage_count = 0 ∨
      (handleArena f th s inp).state.damage_count = s.damage_count ∨
      (handleArena f th s inp).state.damage_count = s.damage_count + 1) ∧
    (∀ (f : Bool) (th : Int) (s : WTState) (inp : ArenaInputs),
      (handleArena f th s inp).drank = true →
      (handleArena f th s inp).state.damage_count = 0) ∧
    (∀ (f : Bool) (th : Int) (s : WTState) (inp : ArenaInputs),
      (checkRoundStatus inp.msg s.last_chat_msg).1 = RoundStatus.brazierBroken →
      (handleArena f th s inp).state.damage_count = s.damage_count + 1) ∧
    (∀ (f : Bool) (th : Int) (s : WTState) (inp : ArenaInputs),
      (checkRoundStatus inp.msg s.last_chat_msg).1 = RoundStatus.damaged →
      (handleArena f th s inp).drank = false →
      (handleArena f th s inp).state.damage_count = s.damage_count + 1) ∧
    (∀ (readings : List Bool) (s : WTState),
      (enterArena readings s).1.damage_count = 0 ∨
      (enterArena readings s).1.damage_count = s.damage_count) ∧
    (∀ (f : Bool) (th : Int) (inps : List ArenaInputs),
      0 ≤ (arenaRun f th initialState inps).damage_count) := by
  refine ⟨?_, ?_, ?_, ?_, ?_, ?_⟩
  · intro f th s inp
    rcases handleArena_dc_drank f th s inp with ⟨_, h2⟩ | ⟨_, h2 | h2⟩ <;> omega
  · intro f th s inp h
    rcases handleArena_dc_drank f th s inp with ⟨_, h2⟩ | ⟨h1, _⟩
    · exact h2
    · rw [h] at h1; exact absurd h1 (by simp)
  · intro f th s inp h
    exact (handleArena_brazierBroken f th s inp h).1
  · intro f th s inp h hd
    exact (handleArena_damaged f th s inp h).1 hd
  · intro readings
    induction readings with
    | nil => intro s; right; rfl
    | cons r rest ih =>
      intro s
      cases r
      · simpa [enterArena] using ih s
      · left; rfl
  · intro f th inps
    exact arenaRun_nonneg f th inps initialState (by rfl)

/-- C5 witness: a brazier-broken chat line increments the damage counter of
the initial state by exactly 1. -/
theorem C5_witness :
    (handleArena false 3 initialState
      { msg := brokenMsg, now := 0, hasPotion := true, hasRoots := false,
        hasKindling := false, invFull := false, idle := true }).state.damage_count =
      initialState.damage_count + 1 :=
  C5_damageCounter.2.2.1 false 3 initialState
    { msg := brokenMsg, now := 0, hasPotion := true, hasRoots := false,
      hasKindling := false, invFull := false, idle := true } (by decide)

lemma afterEvents_exhausted (f : Bool) (th : Int) (s2 : WTState) (inp : ArenaInputs)
    (hge : s2.damage_count ≥ th) (hp : inp.hasPotion = false) :
    (afterEvents f th s2 inp).action =
      (if s2.round_active = true then ArenaAction.exitArena
       else ArenaAction.preparePotions) ∧
    (afterEvents f th s2 inp).state.damage_count = s2.damage_count := by
  cases hr : s2.round_active <;>
    simp [afterEvents, hp, handleWarmth_exhausted hge, hr]

lemma afterEvents_waiting (f : Bool) (th : Int) (s2 : WTState) (inp : ArenaInputs)
    (hlt : s2.damage_count < th) (hact : s2.round_active = false)
    (hp : inp.hasPotion = true) (hre : s2.round_ended_at > 0) :
    (inp.now - s2.round_ended_at < WT_RESPAWN_SECONDS + 5 →
      (afterEvents f th s2 inp).state.round_active = false ∧
      (afterEvents f th s2 inp).action = ArenaAction.idleWait) ∧
    (inp.now - s2.round_ended_at ≥ WT_RESPAWN_SECONDS + 5 →
      (afterEvents f th s2 inp).state.round_active = true ∧
      (afterEvents f th s2 inp).action = ArenaAction.engage) := by
  constructor
  · intro hc
    have hcond :
        ¬(s2.round_ended_at > 0 ∧
          inp.now - s2.round_ended_at ≥ WT_RESPAWN_SECONDS + 5) := by
      rintro ⟨-, h2⟩
      linarith
    simp [afterEvents, handleWarmth_lt true hlt, hact, hp, hcond]
  · intro hc
    have hcond :
        s2.round_ended_at > 0 ∧
          inp.now - s2.round_ended_at ≥ WT_RESPAWN_SECONDS + 5 := ⟨hre, hc⟩
    simp [afterEvents, handleWarmth_lt true hlt, hact, hp, hcond]

/-- C3: the warmth manager drinks (and resets the counter to 0) exactly when
the damage count has reached the threshold and a potion dose is available;
with the threshold reached but no dose it reports exhaustion with the counter
untouched; below the threshold it neither drinks nor signals. On an
exhaustion signal the arena handler prepares potions when the round is
inactive and exits the arena when it is active, and never continues with a
normal chop/fletch/feed action. -/
theorem C3_warmthManager :
    (∀ dc th : Int, dc ≥ th → handleWarmth dc th true = (true, 0, true)) ∧
    (∀ dc th : Int, dc ≥ th → handleWarmth dc th false = (false, dc, false)) ∧
    (∀ (dc th : Int) (p : Bool), dc < th → handleWarmth dc th p = (true, dc, false)) ∧
    (∀ (f : Bool) (th : Int) (s : WTState) (inp : ArenaInputs),
      (checkRoundStatus inp.msg s.last_chat_msg).1 = RoundStatus.none →
      s.damage_count ≥ th → inp.hasPotion = false →
      (handleArena f th s inp).action =
        (if s.round_active = true then ArenaAction.exitArena
         else ArenaAction.preparePotions) ∧
      (handleArena f th s inp).action ≠ ArenaAction.chopRoots ∧
      (handleArena f th s inp).action ≠ ArenaAction.fletchRoots ∧
      (handleArena f th s inp).action ≠ ArenaAction.feedBrazier) := by
  refine ⟨?_, ?_, ?_, ?_⟩
  · intro dc th h; exact handleWarmth_consume h
  · intro dc th h; exact handleWarmth_exhausted h
  · intro dc th p h; exact handleWarmth_lt p h
  · intro f th s inp hst hge hp
    rw [handleArena_eq, hst]
    simp only [handleArenaCore]
    have h := afterEvents_exhausted f th
        { s with last_chat_msg := (checkRoundStatus inp.msg s.last_chat_msg).2 } inp
        (by simpa using hge) hp
    simp only [WTState.round_active] at h ⊢
    refine ⟨h.1, ?_, ?_, ?_⟩ <;> rw [h.1] <;> cases s.round_active <;> simp

/-- C3 witness: at threshold 3 the manager drinks exactly at count 3 with a
dose on hand, signals exhaustion at count 3 with none, stays quiet at count 2,
and an exhausted inactive round triggers potion preparation. -/
theorem C3_witness :
    handleWarmth 3 3 true = (true, 0, true) ∧
    handleWarmth 3 3 false = (false, 3, false) ∧
    handleWarmth 2 3 true = (true, 2, false) ∧
    (handleArena false 3
      { round_active := false, damage_count := 5, round_ended_at := 0,
        last_chat_msg := [], rounds_completed := 0 }
      { msg := [], now := 0, hasPotion := false, hasRoots := false,
        hasKindling := false, invFull := false, idle := true }).action =
      ArenaAction.preparePotions := by
  refine ⟨C3_warmthManager.1 3 3 (by decide), C3_warmthManager.2.1 3 3 (by decide),
    C3_warmthManager.2.2.1 2 3 true (by decide), ?_⟩
  have h := (C3_warmthManager.2.2.2 false 3
      { round_active := false, damage_count := 5, round_ended_at := 0,
        last_chat_msg := [], rounds_completed := 0 }
      { msg := [], now := 0, hasPotion := false, hasRoots := false,
        hasKindling := false, invFull := false, idle := true }
      (by decide) (by decide) rfl).1
  simpa using h

/-- C6: with the round inactive in the arena, the round-end timestamp set,
potions on hand, no new chat event, and the damage count below the threshold,
the round stays inactive (the tick idles) whenever the elapsed time since the
round end is below 65 seconds (the 60-second respawn interval plus the
5-second margin), and flips to active at any tick where the elapsed time is
at least 65 seconds. -/
theorem C6_respawnTimerFallback : ∀ (f : Bool) (th : Int) (s : WTState) (inp : ArenaInputs),
    (checkRoundStatus inp.msg s.last_chat_msg).1 = RoundStatus.none →
    s.round_active = false →
    s.round_ended_at > 0 →
    inp.hasPotion = true →
    s.damage_count < th →
    ((inp.now - s.round_ended_at < 65 →
        (handleArena f th s inp).state.round_active = false ∧
        (handleArena f th s inp).action = ArenaAction.idleWait) ∧
     (inp.now - s.round_ended_at ≥ 65 →
        (handleArena f th s inp).state.round_active = true ∧
        (handleArena f th s inp).action = ArenaAction.engage)) := by
  intro f th s inp hst hact hre hp hlt
  rw [handleArena_eq, hst]
  simp only [handleArenaCore]
  have h65 : WT_RESPAWN_SECONDS + 5 = (65 : ℚ) := by
    norm_num [WT_RESPAWN_SECONDS]
  have h := afterEvents_waiting f th
      { s with last_chat_msg := (checkRoundStatus inp.msg s.last_chat_msg).2 } inp
      (by simpa using hlt) (by simpa using hact) hp (by simpa using hre)
  rw [h65] at h
  simpa using h

/-- C6 witness: 99 seconds after the round ended (past the 65-second mark),
an idle tick with potions and no chat event flips the round to active. -/
theorem C6_witness :
    (handleArena false 3
      { round_active := false, damage_count := 0, round_ended_at := 1,
        last_chat_msg := [], rounds_completed := 0 }
      { msg := [], now := 100, hasPotion := true, hasRoots := false,
        hasKindling := false, invFull := false, idle := true }).state.round_active = true ∧
    (handleArena false 3
      { round_active := false, damage_count := 0, round_ended_at := 1,
        last_chat_msg := [], rounds_completed := 0 }
      { msg := [], now := 100, hasPotion := true, hasRoots := false,
        hasKindling := false, invFull := false, idle := true }).action =
      ArenaAction.engage :=
  (C6_respawnTimerFallback false 3
    { round_active := false, damage_count := 0, round_ended_at := 1,
      last_chat_msg := [], rounds_completed := 0 }
    { msg := [], now := 100, hasPotion := true, hasRoots := false,
      hasKindling := false, invFull := false, idle := true }
    (by decide) rfl (by norm_num) rfl (by decide)).2 (by norm_num)

/-- C2 counterexample: at a concrete successful entry (first zone reading
already inside the arena, from the initial state) the entry succeeds but the
round phase immediately after is not AwaitingRound: `round_active` is true. -/
theorem C2_counterexample :
    (enterArena [true] initialState).2 = true ∧
    ¬(enterArena [true] initialState).1.round_active = false := by decide

/-- C2 (amended): immediately after every successful arena entry (the zone
flips within the retry window) the round phase is RoundActive, not
AwaitingRound — the code assumes the round is active on entry and lets the
respawn-timer logic correct it if between rounds. -/
theorem C2_entryAssumesActive : ∀ (readings : List Bool) (s : WTState),
    (enterArena readings s).2 = true →
    (enterArena readings s).1.round_active = true := by
  intro readings
  induction readings with
  | nil => intro s h; simp [enterArena] at h
  | cons r rest ih =>
    intro s h
    cases r
    · exact ih s (by simpa [enterArena] using h)
    · simp [enterArena]

/-- C2 witness: a concrete successful entry leaves the round marked active. -/
theorem C2_witness : (enterArena [false, true] initialState).1.round_active = true :=
  C2_entryAssumesActive [false, true] initialState (by decide)

/-- C10: an arena entry succeeds exactly when some zone reading in the retry
window is inside the arena; every successful entry resets the damage counter
to exactly 0, and a failed entry leaves the whole state unchanged. -/
theorem C10_entryResetsDamage :
    (∀ (readings : List Bool) (s : WTState),
      (enterArena readings s).2 = readings.contains true) ∧
    (∀ (readings : List Bool) (s : WTState),
      (enterArena readings s).2 = true →
      (enterArena readings s).1.damage_count = 0) ∧
    (∀ (readings : List Bool) (s : WTState),
      (enterArena readings s).2 = false → (enterArena readings s).1 = s) := by
  refine ⟨?_, ?_, ?_⟩
  · intro readings
    induction readings with
    | nil => intro s; rfl
    | cons r rest ih =>
      intro s
      cases r
      · simpa [enterArena] using ih s
      · simp [enterArena]
  · intro readings
    induction readings with
    | nil => intro s h; simp [enterArena] at h
    | cons r rest ih =>
      intro s h
      cases r
      · exact ih s (by simpa [enterArena] using h)
      · simp [enterArena]
  · intro readings
    induction readings with
    | nil => intro s _; rfl
    | cons r rest ih =>
      intro s h
      cases r
      · exact ih s (by simpa [enterArena] using h)
      · simp [enterArena] at h

/-- C10 witness: a concrete successful entry resets a non-zero damage counter
to 0, and a concrete failed entry (no reading inside the arena) leaves the
state unchanged. -/
theorem C10_witness :
    (enterArena [false, true]
      { round_active := true, damage_count := 7, round_ended_at := 0,
        last_chat_msg := [], rounds_completed := 2 }).1.damage_count = 0 ∧
    (enterArena [false, false]
      { round_active := true, damage_count := 7, round_ended_at := 0,
        last_chat_msg := [], rounds_completed := 2 }).1 =
      { round_active := true, damage_count := 7, round_ended_at := 0,
        last_chat_msg := [], rounds_completed := 2 } :=
  ⟨C10_entryResetsDamage.2.1 [false, true]
      { round_active := true, damage_count := 7, round_ended_at := 0,
        last_chat_msg := [], rounds_completed := 2 } (by decide),
   C10_entryResetsDamage.2.2 [false, false]
      { round_active := true, damage_count := 7, round_ended_at := 0,
        last_chat_msg := [], rounds_completed := 2 } (by decide)⟩

end Wintertodt
